import Mathlib

/-!
Verification of the per-unit normalization pipeline and the typed attribute
marshalling dispatcher of `pypowsybl/network.py`.

The embedding models the `Network` class's per-unit state (`nominal_s`,
`per_unit`, `sqrt3`), the category read paths (`get_loads`, `get_batteries`,
`get_lines`, `get_2_windings_transformers`, `get_dangling_lines`,
`get_hvdc_lines`), the per-unit write paths (`update_loads`,
`update_batteries`, `update_dangling_lines`, `update_hvdc_lines`) and the
typed column dispatcher `update_elements`.

Numeric columns are modelled over `ℚ` (exact rational arithmetic standing in
for Python floats; every transform in the source is a field operation).
The constant `self.sqrt3 = math.sqrt(3)` stored by `Network.__init__` is
modelled as the rational value of the IEEE-754 double nearest to √3, which is
what `math.sqrt(3)` returns.

A pandas data frame indexed by element id is modelled as a list of row
structures carrying exactly the columns the per-unit code touches plus the
join keys; `pd.merge(..., left_on=key, right_index=True)` (an inner join
preserving left order) is modelled by `filterMap` over an id lookup in the
voltage-level table.  A caller-supplied update frame is modelled
column-name-keyed, since the write path addresses columns by name and may
receive any subset of columns.  In-place pandas column mutation
(`df[c] *= k`) is modelled by returning the caller's frame after the call:
the first component of an update function's result is the frame object the
caller passed in, as it stands when the call returns; the second is the frame
handed to `update_elements`.  In the source these are the same Python object
for the functions that mutate in place.
-/

/-- The value of the IEEE-754 double closest to √3, i.e. the value Python
stores in `self.sqrt3 = math.sqrt(3)` at `Network.__init__`. -/
def sqrt3Double : ℚ := 7800463371553962 / 4503599627370496

/-- A row of the loads table: the numeric columns touched by the per-unit
read path of `get_loads` (`p0`, `q0`, `p`, `q`, `i`) plus the join key
`voltage_level_id`. -/
structure LoadRow where
  id : String
  p0 : ℚ
  q0 : ℚ
  p : ℚ
  q : ℚ
  i : ℚ
  voltage_level_id : String
deriving DecidableEq

/-- A row of the batteries table (columns `p0`, `q0` named by
`update_batteries`' docstring). -/
structure BatteryRow where
  id : String
  p0 : ℚ
  q0 : ℚ
deriving DecidableEq

/-- A row of the lines table: numeric columns touched by `get_lines` plus the
two side join keys. -/
structure LineRow where
  id : String
  r : ℚ
  x : ℚ
  g1 : ℚ
  b1 : ℚ
  g2 : ℚ
  b2 : ℚ
  p1 : ℚ
  q1 : ℚ
  i1 : ℚ
  p2 : ℚ
  q2 : ℚ
  i2 : ℚ
  voltage_level1_id : String
  voltage_level2_id : String
deriving DecidableEq

/-- A row of the two-winding transformers table: numeric columns touched by
`get_2_windings_transformers` plus the two side join keys. -/
structure TwoWindingsTransformerRow where
  id : String
  r : ℚ
  x : ℚ
  g : ℚ
  b : ℚ
  rated_u1 : ℚ
  rated_u2 : ℚ
  p1 : ℚ
  q1 : ℚ
  i1 : ℚ
  p2 : ℚ
  q2 : ℚ
  i2 : ℚ
  voltage_level1_id : String
  voltage_level2_id : String
deriving DecidableEq

/-- A row of the dangling lines table: numeric columns touched by
`get_dangling_lines` plus the join key. -/
structure DanglingLineRow where
  id : String
  r : ℚ
  x : ℚ
  g : ℚ
  b : ℚ
  p0 : ℚ
  q0 : ℚ
  p : ℚ
  q : ℚ
  i : ℚ
  voltage_level_id : String
deriving DecidableEq

/-- A row of the HVDC lines table: numeric columns touched by
`get_hvdc_lines`.  `nominal_v` is a column of the HVDC row itself; no
voltage-level join occurs for this category. -/
structure HvdcLineRow where
  id : String
  active_power_setpoint : ℚ
  max_p : ℚ
  nominal_v : ℚ
  r : ℚ
deriving DecidableEq

/-- A row of the voltage levels table: the id index and the `nominal_v`
column used by the per-unit joins. -/
structure VoltageLevelRow where
  id : String
  nominal_v : ℚ
deriving DecidableEq

/-- The raw element tables owned by the external engine, as returned by
`_pypowsybl.create_network_elements_series_array` for each category (SI
units, untransformed). -/
structure Engine where
  loads : List LoadRow
  batteries : List BatteryRow
  lines : List LineRow
  twoWindingsTransformers : List TwoWindingsTransformerRow
  danglingLines : List DanglingLineRow
  hvdcLines : List HvdcLineRow
  voltageLevels : List VoltageLevelRow
deriving DecidableEq

/-- The `Network` object state relevant to the per-unit pipeline: the engine
handle (modelled by its raw tables) and the three fields set by
`Network.__init__`: `self.nominal_s = 1`, `self.per_unit = False`,
`self.sqrt3 = math.sqrt(3)`. -/
structure Network where
  engine : Engine
  nominal_s : ℚ
  per_unit : Bool
  sqrt3 : ℚ
deriving DecidableEq

/-- `Network.__init__`: `self.nominal_s = 1`, `self.per_unit = False`,
`self.sqrt3 = math.sqrt(3)`. -/
def Network.init (engine : Engine) : Network :=
  { engine := engine, nominal_s := 1, per_unit := false, sqrt3 := sqrt3Double }

/-- `activate_per_unit`: `self.per_unit = True`. -/
def Network.activate_per_unit (n : Network) : Network :=
  { n with per_unit := true }

/-- `desactivate_per_unit` (sic, source spelling): `self.per_unit = False`. -/
def Network.desactivate_per_unit (n : Network) : Network :=
  { n with per_unit := false }

/-- `set_nominal_s`: `self.nominal_s = nominal_s`.  The source stores the
argument unconditionally; there is no validation branch. -/
def Network.set_nominal_s (n : Network) (nominal_s : ℚ) : Network :=
  { n with nominal_s := nominal_s }

/-- The lookup performed by
`pd.merge(df, self.get_voltage_levels()['nominal_v'], left_on=key, right_index=True)`:
find the voltage-level row whose id equals the element's key and take its
`nominal_v`.  (`get_voltage_levels` rescales only the two limit columns under
per-unit, so `nominal_v` is always the raw engine value.) -/
def lookupNominalV (voltageLevels : List VoltageLevelRow) (vlId : String) : Option ℚ :=
  (voltageLevels.find? fun vl => vl.id == vlId).map fun vl => vl.nominal_v

/-- `get_loads`: raw table when per-unit is off; otherwise `p0 q0 p q` are
divided by `nominal_s` and, after the voltage-level join, `i` is divided by
`nominal_s * 10**3 / (sqrt3 * nominal_v)`; the joined `nominal_v` column is
then dropped (the inner join drops rows with no matching voltage level). -/
def Network.get_loads (n : Network) : List LoadRow :=
  if n.per_unit then
    n.engine.loads.filterMap fun row =>
      (lookupNominalV n.engine.voltageLevels row.voltage_level_id).map fun nv =>
        { row with
          p0 := row.p0 / n.nominal_s
          q0 := row.q0 / n.nominal_s
          p := row.p / n.nominal_s
          q := row.q / n.nominal_s
          i := row.i / (n.nominal_s * 1000 / (n.sqrt3 * nv)) }
  else
    n.engine.loads

/-- `get_batteries`: `return self.get_elements(_pypowsybl.ElementType.BATTERY)`.
The source applies no per-unit branch to this category's read path. -/
def Network.get_batteries (n : Network) : List BatteryRow :=
  n.engine.batteries

/-- `get_lines`: when per-unit is on, `p1 p2 q1 q2` are divided by
`nominal_s`; the table is then joined with the voltage-level table on
`voltage_level1_id` only, and `i1 i2` are divided by
`nominal_s * 10**3 / (sqrt3 * nominal_v)`, `r x` by
`nominal_v**2 / (nominal_s * 10**3)` and `g1 g2 b1 b2` by
`(nominal_s * 10**3) / nominal_v**2`, all with the `nominal_v` obtained from
side 1's voltage level. -/
def Network.get_lines (n : Network) : List LineRow :=
  if n.per_unit then
    n.engine.lines.filterMap fun row =>
      (lookupNominalV n.engine.voltageLevels row.voltage_level1_id).map fun nv =>
        { row with
          p1 := row.p1 / n.nominal_s
          p2 := row.p2 / n.nominal_s
          q1 := row.q1 / n.nominal_s
          q2 := row.q2 / n.nominal_s
          i1 := row.i1 / (n.nominal_s * 1000 / (n.sqrt3 * nv))
          i2 := row.i2 / (n.nominal_s * 1000 / (n.sqrt3 * nv))
          r := row.r / (nv ^ 2 / (n.nominal_s * 1000))
          x := row.x / (nv ^ 2 / (n.nominal_s * 1000))
          g1 := row.g1 / (n.nominal_s * 1000 / nv ^ 2)
          g2 := row.g2 / (n.nominal_s * 1000 / nv ^ 2)
          b1 := row.b1 / (n.nominal_s * 1000 / nv ^ 2)
          b2 := row.b2 / (n.nominal_s * 1000 / nv ^ 2) }
  else
    n.engine.lines

/-- `get_2_windings_transformers`: when per-unit is on, `p1 q1 p2 q2` are
divided by `nominal_s`; the table is joined with the voltage-level table on
`voltage_level1_id` (giving `nominal_v1`) and on `voltage_level2_id` (giving
`nominal_v2`); `i1` is divided by `nominal_s * 10**3 / (sqrt3 * nominal_v1)`,
`i2` by `nominal_s * 10**3 / (sqrt3 * nominal_v2)`, `r x` by
`nominal_v2**2 / (nominal_s * 10**3)`, `g b` by
`(nominal_s * 10**3) / nominal_v2**2`, `rated_u1` by `nominal_v1` and
`rated_u2` by `nominal_v2`. -/
def Network.get_2_windings_transformers (n : Network) : List TwoWindingsTransformerRow :=
  if n.per_unit then
    n.engine.twoWindingsTransformers.filterMap fun row => do
      let nv1 ← lookupNominalV n.engine.voltageLevels row.voltage_level1_id
      let nv2 ← lookupNominalV n.engine.voltageLevels row.voltage_level2_id
      pure { row with
        p1 := row.p1 / n.nominal_s
        q1 := row.q1 / n.nominal_s
        p2 := row.p2 / n.nominal_s
        q2 := row.q2 / n.nominal_s
        i1 := row.i1 / (n.nominal_s * 1000 / (n.sqrt3 * nv1))
        i2 := row.i2 / (n.nominal_s * 1000 / (n.sqrt3 * nv2))
        r := row.r / (nv2 ^ 2 / (n.nominal_s * 1000))
        x := row.x / (nv2 ^ 2 / (n.nominal_s * 1000))
        g := row.g / (n.nominal_s * 1000 / nv2 ^ 2)
        b := row.b / (n.nominal_s * 1000 / nv2 ^ 2)
        rated_u1 := row.rated_u1 / nv1
        rated_u2 := row.rated_u2 / nv2 }
  else
    n.engine.twoWindingsTransformers

/-- `get_dangling_lines`: when per-unit is on, `p q p0 q0` are divided by
`nominal_s`; after the voltage-level join, `i` is divided by
`nominal_s * 10**3 / (sqrt3 * nominal_v)` and `r x g b` are each divided by
`nominal_v**2 / (nominal_s * 10**3)` — the source applies the impedance
denominator to all four of `r x g b`. -/
def Network.get_dangling_lines (n : Network) : List DanglingLineRow :=
  if n.per_unit then
    n.engine.danglingLines.filterMap fun row =>
      (lookupNominalV n.engine.voltageLevels row.voltage_level_id).map fun nv =>
        { row with
          p := row.p / n.nominal_s
          q := row.q / n.nominal_s
          p0 := row.p0 / n.nominal_s
          q0 := row.q0 / n.nominal_s
          i := row.i / (n.nominal_s * 1000 / (n.sqrt3 * nv))
          r := row.r / (nv ^ 2 / (n.nominal_s * 1000))
          x := row.x / (nv ^ 2 / (n.nominal_s * 1000))
          g := row.g / (nv ^ 2 / (n.nominal_s * 1000))
          b := row.b / (nv ^ 2 / (n.nominal_s * 1000)) }
  else
    n.engine.danglingLines

/-- `get_hvdc_lines`: when per-unit is on, `max_p` and
`active_power_setpoint` are divided by `nominal_s` and `r` is divided by
`nominal_v ** 2 / self.nominal_s` — using the row's own `nominal_v` column
(no voltage-level join) and no `10**3` factor in the denominator. -/
def Network.get_hvdc_lines (n : Network) : List HvdcLineRow :=
  if n.per_unit then
    n.engine.hvdcLines.map fun row =>
      { row with
        max_p := row.max_p / n.nominal_s
        active_power_setpoint := row.active_power_setpoint / n.nominal_s
        r := row.r / (row.nominal_v ^ 2 / n.nominal_s) }
  else
    n.engine.hvdcLines

/-- The error raised by a pandas column access `df[name]` when `name` is not
a column of the frame (Python `KeyError`). -/
inductive UpdateError where
  | keyError (column : String)
deriving DecidableEq

/-- A caller-supplied update frame: an element-id index and a list of named
numeric columns (the write paths modelled here only rescale numeric
columns). -/
structure UpdateFrame where
  index : List String
  cols : List (String × List ℚ)
deriving DecidableEq

/-- Column access `df[name]` (the values of the first column named `name`,
or `none` when absent). -/
def UpdateFrame.getCol (f : UpdateFrame) (name : String) : Option (List ℚ) :=
  (f.cols.find? fun c => c.1 == name).map fun c => c.2

/-- The in-place pandas statement `df[name] *= k`: reads the column (raising
`KeyError` when it is absent) and overwrites it with the elementwise
product. -/
def UpdateFrame.mulCol (f : UpdateFrame) (name : String) (k : ℚ) :
    Except UpdateError UpdateFrame :=
  match f.getCol name with
  | none => .error (.keyError name)
  | some _ =>
      .ok { f with cols := f.cols.map fun c =>
              if c.1 = name then (c.1, c.2.map fun v => v * k) else c }

/-- `update_loads`: when per-unit is on, `df['p0'] *= self.nominal_s` and
`df['q0'] *= self.nominal_s`, both in place on the caller's frame, before
`update_elements` is called on the same object.  The result pair is
(caller's frame after the call, frame handed to `update_elements`); the
source mutates `df` in place, so the two components are the same frame. -/
def Network.update_loads (n : Network) (df : UpdateFrame) :
    Except UpdateError (UpdateFrame × UpdateFrame) :=
  if n.per_unit then do
    let df ← df.mulCol "p0" n.nominal_s
    let df ← df.mulCol "q0" n.nominal_s
    pure (df, df)
  else
    pure (df, df)

/-- `update_batteries`: same per-unit write path as `update_loads`
(`p0` and `q0` multiplied in place by `nominal_s`). -/
def Network.update_batteries (n : Network) (df : UpdateFrame) :
    Except UpdateError (UpdateFrame × UpdateFrame) :=
  if n.per_unit then do
    let df ← df.mulCol "p0" n.nominal_s
    let df ← df.mulCol "q0" n.nominal_s
    pure (df, df)
  else
    pure (df, df)

/-- `update_dangling_lines`: same per-unit write path as `update_loads`
(`p0` and `q0` multiplied in place by `nominal_s`). -/
def Network.update_dangling_lines (n : Network) (df : UpdateFrame) :
    Except UpdateError (UpdateFrame × UpdateFrame) :=
  if n.per_unit then do
    let df ← df.mulCol "p0" n.nominal_s
    let df ← df.mulCol "q0" n.nominal_s
    pure (df, df)
  else
    pure (df, df)

/-- `update_hvdc_lines`: when per-unit is on,
`df['active_power_setpoint'] *= self.nominal_s` in place on the caller's
frame. -/
def Network.update_hvdc_lines (n : Network) (df : UpdateFrame) :
    Except UpdateError (UpdateFrame × UpdateFrame) :=
  if n.per_unit then do
    let df ← df.mulCol "active_power_setpoint" n.nominal_s
    pure (df, df)
  else
    pure (df, df)

/-- The `_pypowsybl.ElementType` enumeration (closed, fixed at design
time). -/
inductive ElementType where
  | BUS
  | GENERATOR
  | LOAD
  | BATTERY
  | LINE
  | TWO_WINDINGS_TRANSFORMER
  | THREE_WINDINGS_TRANSFORMER
  | SHUNT_COMPENSATOR
  | DANGLING_LINE
  | LCC_CONVERTER_STATION
  | VSC_CONVERTER_STATION
  | STATIC_VAR_COMPENSATOR
  | VOLTAGE_LEVEL
  | BUSBAR_SECTION
  | SUBSTATION
  | HVDC_LINE
  | SWITCH
  | RATIO_TAP_CHANGER
  | PHASE_TAP_CHANGER
  | RATIO_TAP_CHANGER_STEP
  | PHASE_TAP_CHANGER_STEP
  | REACTIVE_CAPABILITY_CURVE_POINT
deriving DecidableEq

/-- A value of a typed series cell (string / double / integer-or-boolean). -/
inductive SValue where
  | str (v : String)
  | dbl (v : ℚ)
  | int (v : Int)
deriving DecidableEq

/-- A named series (one data frame column) as iterated by
`update_elements`. -/
structure Series where
  name : String
  values : List SValue
deriving DecidableEq

/-- A typed data frame as passed to `update_elements`: the id index and the
named columns, in order. -/
structure DataFrame where
  index : List String
  columns : List Series
deriving DecidableEq

/-- One call to a typed bulk-write primitive of the external engine
(`update_network_elements_with_{int,double,string}_series`), with the
arguments the source passes: element type, series name, the frame's index,
the series values and their count. -/
inductive WriteCall where
  | intSeries (elementType : ElementType) (name : String) (index : List String)
      (values : List SValue) (len : Nat)
  | doubleSeries (elementType : ElementType) (name : String) (index : List String)
      (values : List SValue) (len : Nat)
  | stringSeries (elementType : ElementType) (name : String) (index : List String)
      (values : List SValue) (len : Nat)
deriving DecidableEq

/-- The `PyPowsyblError` raised by `update_elements` for an unrecognized
series type code: the message
`f'Unsupported series type {series_type}, element type: {element_type}, series_name: {series_name}'`
names the type code, the element category and the column. -/
inductive PyPowsyblError where
  | unsupportedSeriesType (seriesType : Int) (elementType : ElementType) (seriesName : String)
deriving DecidableEq

/-- The column loop of `update_elements`: for each column in order, query the
Schema Oracle (`_pypowsybl.get_series_type`) and dispatch to the int series
write when the code is 2 or 3, the double series write when it is 1, the
string series write when it is 0, and otherwise raise.  The result is the
list of writes dispatched before the loop ended, together with the error, if
any, that terminated it (writes dispatched before a failing column remain
applied). -/
def updateElementsLoop (seriesTypeOf : ElementType → String → Int)
    (elementType : ElementType) (index : List String) :
    List Series → List WriteCall × Option PyPowsyblError
  | [] => ([], none)
  | s :: rest =>
    let t := seriesTypeOf elementType s.name
    if t = 2 ∨ t = 3 then
      let next := updateElementsLoop seriesTypeOf elementType index rest
      (.intSeries elementType s.name index s.values s.values.length :: next.1, next.2)
    else if t = 1 then
      let next := updateElementsLoop seriesTypeOf elementType index rest
      (.doubleSeries elementType s.name index s.values s.values.length :: next.1, next.2)
    else if t = 0 then
      let next := updateElementsLoop seriesTypeOf elementType index rest
      (.stringSeries elementType s.name index s.values s.values.length :: next.1, next.2)
    else
      ([], some (.unsupportedSeriesType t elementType s.name))

/-- `update_elements`: iterate the frame's columns and dispatch each to the
Schema-Oracle-declared typed write primitive (see `updateElementsLoop`). -/
def update_elements (seriesTypeOf : ElementType → String → Int)
    (elementType : ElementType) (df : DataFrame) :
    List WriteCall × Option PyPowsyblError :=
  updateElementsLoop seriesTypeOf elementType df.index df.columns

/-- The typed write a recognized type code dispatches to: 2 and 3 go to the
int series primitive, 1 to the double series primitive, 0 to the string
series primitive. -/
def dispatchCall (seriesTypeOf : ElementType → String → Int)
    (elementType : ElementType) (index : List String) (s : Series) : WriteCall :=
  let t := seriesTypeOf elementType s.name
  if t = 2 ∨ t = 3 then
    .intSeries elementType s.name index s.values s.values.length
  else if t = 1 then
    .doubleSeries elementType s.name index s.values s.values.length
  else
    .stringSeries elementType s.name index s.values s.values.length

/-- Scaling one named column leaves every `find?`-by-name lookup either
scaled (the named column) or untouched (any other name). -/
theorem find?_scaleCol (cols : List (String × List ℚ)) (name name2 : String) (k : ℚ) :
    ((cols.map fun c => if c.1 = name then (c.1, c.2.map fun v => v * k) else c).find?
        fun c => c.1 == name2).map (fun c => c.2) =
      if name2 = name then
        ((cols.find? fun c => c.1 == name2).map fun c => c.2).map (List.map fun v => v * k)
      else
        (cols.find? fun c => c.1 == name2).map fun c => c.2 := by
  induction cols with
  | nil => by_cases h : name2 = name <;> simp [h]
  | cons c rest ih =>
    by_cases hm : c.1 = name2
    · by_cases hc : c.1 = name
      · have h2 : name2 = name := hm ▸ hc
        simp [List.find?_cons, hm, hc, h2]
      · have h2 : ¬ name2 = name := fun h => hc (hm.trans h)
        simp [List.find?_cons, hm, hc, h2]
    · by_cases hc : c.1 = name
      · simp only [List.map_cons, if_pos hc, List.find?_cons]
        have : ((c.1, c.2.map fun v => v * k).1 == name2) = false := by
          simp [hm]
        simp only [this, Bool.false_eq_true, if_false, beq_iff_eq, hm, ih]
      · simp only [List.map_cons, if_neg hc, List.find?_cons]
        have : (c.1 == name2) = false := by simp [hm]
        simp only [this, Bool.false_eq_true, if_false, ih]

/-- After a successful `df[name] *= k`, reading back column `name2` gives the
scaled values when `name2 = name` and the original values otherwise; the
index is unchanged. -/
theorem UpdateFrame.getCol_mulCol (f f2 : UpdateFrame) (name name2 : String) (k : ℚ)
    (h : f.mulCol name k = .ok f2) :
    f2.getCol name2 =
      (if name2 = name then (f.getCol name2).map (List.map fun v => v * k)
       else f.getCol name2) ∧
    f2.index = f.index := by
  unfold UpdateFrame.mulCol at h
  cases hg : f.getCol name with
  | none => rw [hg] at h; cases h
  | some vs =>
    rw [hg] at h
    cases h
    refine ⟨?_, rfl⟩
    show (UpdateFrame.getCol _ name2) = _
    unfold UpdateFrame.getCol
    exact find?_scaleCol f.cols name name2 k

/-- `df[name] *= k` raises `KeyError(name)` when the column is absent. -/
theorem UpdateFrame.mulCol_none (f : UpdateFrame) (name : String) (k : ℚ)
    (h : f.getCol name = none) : f.mulCol name k = .error (.keyError name) := by
  unfold UpdateFrame.mulCol
  rw [h]

/-- When some column's declared type code is unrecognized, the column loop
ends with an `unsupportedSeriesType` error naming the element category and
the (first) offending column. -/
theorem updateElementsLoop_err (seriesTypeOf : ElementType → String → Int)
    (elementType : ElementType) (index : List String) (l : List Series)
    (h : ∃ s ∈ l, seriesTypeOf elementType s.name ≠ 0 ∧
      seriesTypeOf elementType s.name ≠ 1 ∧ seriesTypeOf elementType s.name ≠ 2 ∧
      seriesTypeOf elementType s.name ≠ 3) :
    ∃ s ∈ l, seriesTypeOf elementType s.name ≠ 0 ∧
      seriesTypeOf elementType s.name ≠ 1 ∧ seriesTypeOf elementType s.name ≠ 2 ∧
      seriesTypeOf elementType s.name ≠ 3 ∧
      (updateElementsLoop seriesTypeOf elementType index l).2 =
        some (.unsupportedSeriesType (seriesTypeOf elementType s.name) elementType s.name) := by
  induction l with
  | nil => simp at h
  | cons s rest ih =>
    by_cases h23 : seriesTypeOf elementType s.name = 2 ∨ seriesTypeOf elementType s.name = 3
    · obtain ⟨s0, hs0, hbad⟩ := h
      rcases List.mem_cons.mp hs0 with heq | hmem
      · subst heq
        rcases h23 with h2 | h3
        · exact absurd h2 hbad.2.2.1
        · exact absurd h3 hbad.2.2.2
      · obtain ⟨s1, hs1, hb0, hb1, hb2, hb3, heq⟩ := ih ⟨s0, hmem, hbad⟩
        refine ⟨s1, List.mem_cons_of_mem _ hs1, hb0, hb1, hb2, hb3, ?_⟩
        simpa [updateElementsLoop, h23] using heq
    · by_cases h1 : seriesTypeOf elementType s.name = 1
      · obtain ⟨s0, hs0, hbad⟩ := h
        rcases List.mem_cons.mp hs0 with heq | hmem
        · subst heq; exact absurd h1 hbad.2.1
        · obtain ⟨s1, hs1, hb0, hb1, hb2, hb3, heq⟩ := ih ⟨s0, hmem, hbad⟩
          refine ⟨s1, List.mem_cons_of_mem _ hs1, hb0, hb1, hb2, hb3, ?_⟩
          simpa [updateElementsLoop, h23, h1] using heq
      · by_cases h0 : seriesTypeOf elementType s.name = 0
        · obtain ⟨s0, hs0, hbad⟩ := h
          rcases List.mem_cons.mp hs0 with heq | hmem
          · subst heq; exact absurd h0 hbad.1
          · obtain ⟨s1, hs1, hb0, hb1, hb2, hb3, heq⟩ := ih ⟨s0, hmem, hbad⟩
            refine ⟨s1, List.mem_cons_of_mem _ hs1, hb0, hb1, hb2, hb3, ?_⟩
            simpa [updateElementsLoop, h23, h1, h0] using heq
        · refine ⟨s, List.mem_cons_self s rest, h0, h1, ?_, ?_, ?_⟩
          · intro h; exact h23 (Or.inl h)
          · intro h; exact h23 (Or.inr h)
          · simp [updateElementsLoop, h23, h1, h0]

/-- When every column's declared type code is recognized, the column loop
dispatches each column, in order, to the typed write primitive selected by
its code, and ends without error. -/
theorem updateElementsLoop_ok (seriesTypeOf : ElementType → String → Int)
    (elementType : ElementType) (index : List String) (l : List Series)
    (h : ∀ s ∈ l, seriesTypeOf elementType s.name = 0 ∨
      seriesTypeOf elementType s.name = 1 ∨ seriesTypeOf elementType s.name = 2 ∨
      seriesTypeOf elementType s.name = 3) :
    updateElementsLoop seriesTypeOf elementType index l =
      (l.map (dispatchCall seriesTypeOf elementType index), none) := by
  induction l with
  | nil => simp [updateElementsLoop]
  | cons s rest ih =>
    have hrest := fun s' h' => h s' (List.mem_cons_of_mem _ h')
    have hs := h s (List.mem_cons_self s rest)
    by_cases h23 : seriesTypeOf elementType s.name = 2 ∨ seriesTypeOf elementType s.name = 3
    · simp [updateElementsLoop, dispatchCall, h23, ih hrest]
    · by_cases h1 : seriesTypeOf elementType s.name = 1
      · simp [updateElementsLoop, dispatchCall, h23, h1, ih hrest]
      · have h0 : seriesTypeOf elementType s.name = 0 := by
          rcases hs with h | h | h | h
          · exact h
          · exact absurd h h1
          · exact absurd (Or.inl h) h23
          · exact absurd (Or.inr h) h23
        simp [updateElementsLoop, dispatchCall, h23, h1, h0, ih hrest]

/-- `Except.bind` on a success passes the value to the continuation. -/
theorem except_bind_ok {ε α β : Type} (a : α) (f : α → Except ε β) :
    (Except.ok a >>= f) = f a := rfl

/-- `Except.bind` on an error short-circuits. -/
theorem except_bind_error {ε α β : Type} (e : ε) (f : α → Except ε β) :
    ((Except.error e : Except ε α) >>= f) = Except.error e := rfl

/-- `update_batteries` has exactly the per-unit write path of
`update_loads`. -/
theorem Network.update_batteries_eq_update_loads :
    Network.update_batteries = Network.update_loads := rfl

/-- `update_dangling_lines` has exactly the per-unit write path of
`update_loads`. -/
theorem Network.update_dangling_lines_eq_update_loads :
    Network.update_dangling_lines = Network.update_loads := rfl

/-- A successful per-unit `update_loads` hands `update_elements` the caller's
frame itself, with `p0` and `q0` scaled by `nominal_s` and every other
column and the index untouched. -/
theorem update_p0q0_ok (n : Network) (df caller engineDf : UpdateFrame)
    (hpu : n.per_unit = true)
    (h : n.update_loads df = .ok (caller, engineDf)) :
    engineDf = caller ∧
    caller.getCol "p0" = (df.getCol "p0").map (List.map fun v => v * n.nominal_s) ∧
    caller.getCol "q0" = (df.getCol "q0").map (List.map fun v => v * n.nominal_s) ∧
    (∀ name, name ≠ "p0" → name ≠ "q0" → caller.getCol name = df.getCol name) ∧
    caller.index = df.index := by
  unfold Network.update_loads at h
  rw [hpu] at h
  simp only [if_true] at h
  cases hm1 : df.mulCol "p0" n.nominal_s with
  | error e => rw [hm1, except_bind_error] at h; cases h
  | ok d1 =>
    rw [hm1, except_bind_ok] at h
    cases hm2 : d1.mulCol "q0" n.nominal_s with
    | error e => rw [hm2, except_bind_error] at h; cases h
    | ok d2 =>
      rw [hm2, except_bind_ok] at h
      have hpair : d2 = caller ∧ d2 = engineDf := by
        have h2 : Except.ok (ε := UpdateError) (d2, d2) = Except.ok (caller, engineDf) := h
        injection h2 with h3
        exact ⟨congrArg Prod.fst h3, congrArg Prod.snd h3⟩
      obtain ⟨h4, he⟩ := hpair
      rw [← h4]
      obtain ⟨hg1, hi1⟩ := UpdateFrame.getCol_mulCol df d1 "p0" "p0" n.nominal_s hm1
      obtain ⟨hg1q, _⟩ := UpdateFrame.getCol_mulCol df d1 "p0" "q0" n.nominal_s hm1
      obtain ⟨hg2p, hi2⟩ := UpdateFrame.getCol_mulCol d1 d2 "q0" "p0" n.nominal_s hm2
      obtain ⟨hg2, _⟩ := UpdateFrame.getCol_mulCol d1 d2 "q0" "q0" n.nominal_s hm2
      refine ⟨he.symm, ?_, ?_, ?_, ?_⟩
      · rw [hg2p, if_neg (by decide), hg1, if_pos rfl]
      · rw [hg2, if_pos rfl, hg1q, if_neg (by decide)]
      · intro name hp hq
        obtain ⟨ha, _⟩ := UpdateFrame.getCol_mulCol d1 d2 "q0" name n.nominal_s hm2
        obtain ⟨hb, _⟩ := UpdateFrame.getCol_mulCol df d1 "p0" name n.nominal_s hm1
        rw [ha, if_neg hq, hb, if_neg hp]
      · rw [hi2, hi1]

/-- A successful per-unit `update_hvdc_lines` hands `update_elements` the
caller's frame itself, with `active_power_setpoint` scaled by `nominal_s`. -/
theorem update_hvdc_ok (n : Network) (df caller engineDf : UpdateFrame)
    (hpu : n.per_unit = true)
    (h : n.update_hvdc_lines df = .ok (caller, engineDf)) :
    engineDf = caller ∧
    caller.getCol "active_power_setpoint" =
      (df.getCol "active_power_setpoint").map (List.map fun v => v * n.nominal_s) := by
  unfold Network.update_hvdc_lines at h
  rw [hpu] at h
  simp only [if_true] at h
  cases hm1 : df.mulCol "active_power_setpoint" n.nominal_s with
  | error e => rw [hm1, except_bind_error] at h; cases h
  | ok d1 =>
    rw [hm1, except_bind_ok] at h
    have hpair : d1 = caller ∧ d1 = engineDf := by
      have h2 : Except.ok (ε := UpdateError) (d1, d1) = Except.ok (caller, engineDf) := h
      injection h2 with h3
      exact ⟨congrArg Prod.fst h3, congrArg Prod.snd h3⟩
    obtain ⟨h4, he⟩ := hpair
    rw [← h4]
    obtain ⟨hg, _⟩ :=
      UpdateFrame.getCol_mulCol df d1 "active_power_setpoint" "active_power_setpoint"
        n.nominal_s hm1
    exact ⟨he.symm, by rw [hg, if_pos rfl]⟩

/-- An engine with no elements, used as the base of concrete test
networks. -/
def emptyEngine : Engine := ⟨[], [], [], [], [], [], []⟩

/-- C1 counterexample network: a freshly constructed network. -/
def c1Net : Network := Network.init emptyEngine

/-- C1: the claim that `set_nominal_s` rejects non-positive values and
leaves the stored base unchanged is false: `set_nominal_s (-1)` succeeds,
replaces the stored base (1 after construction) with `-1`, and leaves the
network with a non-positive `nominal_s`. -/
theorem c1_counterexample :
    (c1Net.set_nominal_s (-1)).nominal_s = -1 ∧
    (c1Net.set_nominal_s (-1)).nominal_s ≠ c1Net.nominal_s ∧
    ¬ 0 < (c1Net.set_nominal_s (-1)).nominal_s := by
  refine ⟨rfl, ?_, ?_⟩
  · show (-1 : ℚ) ≠ 1
    norm_num
  · show ¬ (0 : ℚ) < -1
    norm_num

/-- C1 (amended): `set_nominal_s` stores the supplied value unconditionally —
no validation occurs and no error is raised, for non-positive values
included — leaving the rest of the network state untouched; `nominal_s > 0`
holds only at construction, where it defaults to 1. -/
theorem c1_set_nominal_s_no_validation :
    (∀ (n : Network) (v : ℚ),
      (n.set_nominal_s v).nominal_s = v ∧
      (n.set_nominal_s v).per_unit = n.per_unit ∧
      (n.set_nominal_s v).engine = n.engine) ∧
    (∀ engine : Engine, (Network.init engine).nominal_s = 1 ∧
      0 < (Network.init engine).nominal_s) :=
  ⟨fun _ _ => ⟨rfl, rfl, rfl⟩, fun _ => ⟨rfl, by norm_num [Network.init]⟩⟩

/-- C2 counterexample network: per-unit enabled, `nominal_s = 100`, one
battery with raw `p0 = 6`, `q0 = 2`. -/
def c2Net : Network :=
  ((Network.init
    { emptyEngine with batteries := [⟨"BAT", 6, 2⟩] }).activate_per_unit).set_nominal_s 100

/-- C2: the claim that `get_batteries` divides `p0` by the power base on
read is false: with per-unit enabled and `nominal_s = 100`, a battery with
raw `p0 = 6` reads back as `6`, not `6 / 100`. -/
theorem c2_counterexample :
    (c2Net.get_batteries.map fun row => row.p0) = [6] ∧ (6 : ℚ) ≠ 6 / 100 := by
  constructor
  · rfl
  · norm_num

/-- C2 (amended): the battery read and write transforms are not mutual
inverses: `get_batteries` applies no per-unit transform at all — it returns
the raw engine rows whatever the per-unit flag and power base — while
`update_batteries` with per-unit enabled does multiply the supplied `p0` and
`q0` columns by `nominal_s` before dispatching. -/
theorem c2_battery_read_raw_write_scaled :
    (∀ n : Network, n.get_batteries = n.engine.batteries) ∧
    (∀ (n : Network) (df caller engineDf : UpdateFrame),
      n.per_unit = true →
      n.update_batteries df = .ok (caller, engineDf) →
      engineDf.getCol "p0" = (df.getCol "p0").map (List.map fun v => v * n.nominal_s) ∧
      engineDf.getCol "q0" = (df.getCol "q0").map (List.map fun v => v * n.nominal_s)) := by
  refine ⟨fun _ => rfl, fun n df caller engineDf hpu h => ?_⟩
  rw [Network.update_batteries_eq_update_loads] at h
  obtain ⟨he, hp, hq, -, -⟩ := update_p0q0_ok n df caller engineDf hpu h
  exact ⟨he ▸ hp, he ▸ hq⟩

/-- Concrete update frame used by the C2 witness: one battery row with
per-unit `p0 = 1`, `q0 = 2`. -/
def c2Df : UpdateFrame := ⟨["BAT"], [("p0", [1]), ("q0", [2])]⟩

/-- The frame `c2Df` becomes after `update_batteries` scales it by
`nominal_s = 100`. -/
def c2DfScaled : UpdateFrame := ⟨["BAT"], [("p0", [1 * 100]), ("q0", [2 * 100])]⟩

/-- C2 witness: the amended battery statement instantiated on `c2Net` and a
concrete two-column frame. -/
theorem c2_battery_witness :
    c2Net.per_unit = true ∧
    c2Net.update_batteries c2Df = .ok (c2DfScaled, c2DfScaled) ∧
    (c2DfScaled.getCol "p0" = (c2Df.getCol "p0").map (List.map fun v => v * c2Net.nominal_s) ∧
     c2DfScaled.getCol "q0" = (c2Df.getCol "q0").map (List.map fun v => v * c2Net.nominal_s)) := by
  have hok : c2Net.update_batteries c2Df = .ok (c2DfScaled, c2DfScaled) := by
    rfl
  exact ⟨rfl, hok, c2_battery_read_raw_write_scaled.2 c2Net c2Df c2DfScaled c2DfScaled rfl hok⟩

/-- Raw line row used by the C3 network: all numeric columns 1, side 1 on
voltage level `VL1`, side 2 on `VL2`. -/
def c3Line : LineRow := ⟨"L", 1, 1, 1, 1, 1, 1, 1, 1, 1, 1, 1, 1, "VL1", "VL2"⟩

/-- C3 counterexample network: per-unit enabled, `nominal_s = 100`, one line
joining voltage levels with different nominal voltages (side 1 at 100 kV,
side 2 at 200 kV), all raw line quantities equal to 1. -/
def c3Net : Network :=
  ((Network.init
    { emptyEngine with
      lines := [c3Line],
      voltageLevels := [⟨"VL1", 100⟩, ⟨"VL2", 200⟩] }).activate_per_unit).set_nominal_s 100

/-- C3: the claim that `get_lines` divides side-2 quantities by bases
derived from `voltage_level2_id` is false: with side 1 at 100 kV and side 2
at 200 kV, raw `g2 = 1` reads back as `1 / (100·1000 / 100²) = 1/10` (side-1
base), not `1 / (100·1000 / 200²) = 2/5` (side-2 base). -/
theorem c3_counterexample :
    (c3Net.get_lines.map fun row => row.g2) = [(1 : ℚ) / (100 * 1000 / 100 ^ 2)] ∧
    (1 : ℚ) / (100 * 1000 / 100 ^ 2) = 1 / 10 ∧
    (1 / 10 : ℚ) ≠ 1 / (100 * 1000 / 200 ^ 2) := by
  refine ⟨rfl, by norm_num, by norm_num⟩

/-- C3 (amended): sides are normalized independently in
`get_2_windings_transformers` (each side's current and rated voltage use its
own nominal voltage), but `get_lines` joins only on `voltage_level1_id` and
divides all per-unit columns — `i2`, `g2` and `b2` included — by bases
computed from side 1's nominal voltage. -/
theorem c3_line_side2_uses_side1_base :
    (∀ (n : Network) (row : LineRow) (nv1 : ℚ),
      n.per_unit = true →
      row ∈ n.engine.lines →
      lookupNominalV n.engine.voltageLevels row.voltage_level1_id = some nv1 →
      ∃ row2 ∈ n.get_lines, row2.id = row.id ∧
        row2.i2 = row.i2 / (n.nominal_s * 1000 / (n.sqrt3 * nv1)) ∧
        row2.g2 = row.g2 / (n.nominal_s * 1000 / nv1 ^ 2) ∧
        row2.b2 = row.b2 / (n.nominal_s * 1000 / nv1 ^ 2)) ∧
    (∀ (n : Network) (row : TwoWindingsTransformerRow) (nv1 nv2 : ℚ),
      n.per_unit = true →
      row ∈ n.engine.twoWindingsTransformers →
      lookupNominalV n.engine.voltageLevels row.voltage_level1_id = some nv1 →
      lookupNominalV n.engine.voltageLevels row.voltage_level2_id = some nv2 →
      ∃ row2 ∈ n.get_2_windings_transformers, row2.id = row.id ∧
        row2.i1 = row.i1 / (n.nominal_s * 1000 / (n.sqrt3 * nv1)) ∧
        row2.i2 = row.i2 / (n.nominal_s * 1000 / (n.sqrt3 * nv2)) ∧
        row2.rated_u1 = row.rated_u1 / nv1 ∧
        row2.rated_u2 = row.rated_u2 / nv2) := by
  constructor
  · intro n row nv1 hpu hmem hlook
    unfold Network.get_lines
    simp only [hpu, if_true]
    refine ⟨{ row with
        p1 := row.p1 / n.nominal_s
        p2 := row.p2 / n.nominal_s
        q1 := row.q1 / n.nominal_s
        q2 := row.q2 / n.nominal_s
        i1 := row.i1 / (n.nominal_s * 1000 / (n.sqrt3 * nv1))
        i2 := row.i2 / (n.nominal_s * 1000 / (n.sqrt3 * nv1))
        r := row.r / (nv1 ^ 2 / (n.nominal_s * 1000))
        x := row.x / (nv1 ^ 2 / (n.nominal_s * 1000))
        g1 := row.g1 / (n.nominal_s * 1000 / nv1 ^ 2)
        g2 := row.g2 / (n.nominal_s * 1000 / nv1 ^ 2)
        b1 := row.b1 / (n.nominal_s * 1000 / nv1 ^ 2)
        b2 := row.b2 / (n.nominal_s * 1000 / nv1 ^ 2) },
      List.mem_filterMap.mpr ⟨row, hmem, by rw [hlook]; rfl⟩, rfl, rfl, rfl, rfl⟩
  · intro n row nv1 nv2 hpu hmem hlook1 hlook2
    unfold Network.get_2_windings_transformers
    simp only [hpu, if_true]
    refine ⟨{ row with
        p1 := row.p1 / n.nominal_s
        q1 := row.q1 / n.nominal_s
        p2 := row.p2 / n.nominal_s
        q2 := row.q2 / n.nominal_s
        i1 := row.i1 / (n.nominal_s * 1000 / (n.sqrt3 * nv1))
        i2 := row.i2 / (n.nominal_s * 1000 / (n.sqrt3 * nv2))
        r := row.r / (nv2 ^ 2 / (n.nominal_s * 1000))
        x := row.x / (nv2 ^ 2 / (n.nominal_s * 1000))
        g := row.g / (n.nominal_s * 1000 / nv2 ^ 2)
        b := row.b / (n.nominal_s * 1000 / nv2 ^ 2)
        rated_u1 := row.rated_u1 / nv1
        rated_u2 := row.rated_u2 / nv2 },
      List.mem_filterMap.mpr ⟨row, hmem, by simp only [hlook1, hlook2]; rfl⟩,
      rfl, rfl, rfl, rfl, rfl⟩

/-- C3 witness: the amended statement instantiated on `c3Net` and its single
line. -/
theorem c3_witness :
    c3Net.per_unit = true ∧
    c3Line ∈ c3Net.engine.lines ∧
    lookupNominalV c3Net.engine.voltageLevels c3Line.voltage_level1_id = some 100 ∧
    (∃ row2 ∈ c3Net.get_lines, row2.id = c3Line.id ∧
      row2.i2 = c3Line.i2 / (c3Net.nominal_s * 1000 / (c3Net.sqrt3 * 100)) ∧
      row2.g2 = c3Line.g2 / (c3Net.nominal_s * 1000 / 100 ^ 2) ∧
      row2.b2 = c3Line.b2 / (c3Net.nominal_s * 1000 / 100 ^ 2)) :=
  ⟨rfl, List.mem_singleton.mpr rfl, rfl,
    c3_line_side2_uses_side1_base.1 c3Net c3Line 100 rfl (List.mem_singleton.mpr rfl) rfl⟩

/-- Raw dangling-line row used by the C4 network: all numeric columns 1, on
voltage level `VL`. -/
def c4DanglingLine : DanglingLineRow := ⟨"DL", 1, 1, 1, 1, 1, 1, 1, 1, 1, "VL"⟩

/-- C4 counterexample network: per-unit enabled, `nominal_s = 100`, one
dangling line with all raw values 1 on a 100 kV voltage level. -/
def c4Net : Network :=
  ((Network.init
    { emptyEngine with
      danglingLines := [c4DanglingLine],
      voltageLevels := [⟨"VL", 100⟩] }).activate_per_unit).set_nominal_s 100

/-- C4: the claim that dangling-line `g` is divided by the admittance base
`(power_base · 1000) / voltage_base²` is false: with `nominal_s = 100` and a
100 kV level, raw `g = 1` reads back as `1 / (100² / (100·1000)) = 10` (the
impedance base is used), not `1 / (100·1000 / 100²) = 1/10`. -/
theorem c4_counterexample :
    (c4Net.get_dangling_lines.map fun row => row.g) = [(1 : ℚ) / (100 ^ 2 / (100 * 1000))] ∧
    (1 : ℚ) / (100 ^ 2 / (100 * 1000)) = 10 ∧
    (10 : ℚ) ≠ 1 / (100 * 1000 / 100 ^ 2) := by
  refine ⟨rfl, by norm_num, by norm_num⟩

/-- C4 (amended): with per-unit enabled, `get_dangling_lines` divides all
four of `r`, `x`, `g` and `b` by the impedance base
`voltage_base² / (power_base · 1000)`; the conductance and susceptance
columns do not use the admittance base. -/
theorem c4_dangling_g_b_use_impedance_base (n : Network) (row : DanglingLineRow) (nv : ℚ)
    (hpu : n.per_unit = true)
    (hmem : row ∈ n.engine.danglingLines)
    (hlook : lookupNominalV n.engine.voltageLevels row.voltage_level_id = some nv) :
    ∃ row2 ∈ n.get_dangling_lines, row2.id = row.id ∧
      row2.r = row.r / (nv ^ 2 / (n.nominal_s * 1000)) ∧
      row2.x = row.x / (nv ^ 2 / (n.nominal_s * 1000)) ∧
      row2.g = row.g / (nv ^ 2 / (n.nominal_s * 1000)) ∧
      row2.b = row.b / (nv ^ 2 / (n.nominal_s * 1000)) := by
  unfold Network.get_dangling_lines
  simp only [hpu, if_true]
  refine ⟨{ row with
      p := row.p / n.nominal_s
      q := row.q / n.nominal_s
      p0 := row.p0 / n.nominal_s
      q0 := row.q0 / n.nominal_s
      i := row.i / (n.nominal_s * 1000 / (n.sqrt3 * nv))
      r := row.r / (nv ^ 2 / (n.nominal_s * 1000))
      x := row.x / (nv ^ 2 / (n.nominal_s * 1000))
      g := row.g / (nv ^ 2 / (n.nominal_s * 1000))
      b := row.b / (nv ^ 2 / (n.nominal_s * 1000)) },
    List.mem_filterMap.mpr ⟨row, hmem, by rw [hlook]; rfl⟩, rfl, rfl, rfl, rfl, rfl⟩

/-- C4 witness: the amended statement instantiated on `c4Net` and its single
dangling line. -/
theorem c4_witness :
    c4Net.per_unit = true ∧
    c4DanglingLine ∈ c4Net.engine.danglingLines ∧
    lookupNominalV c4Net.engine.voltageLevels c4DanglingLine.voltage_level_id = some 100 ∧
    (∃ row2 ∈ c4Net.get_dangling_lines, row2.id = c4DanglingLine.id ∧
      row2.r = c4DanglingLine.r / (100 ^ 2 / (c4Net.nominal_s * 1000)) ∧
      row2.x = c4DanglingLine.x / (100 ^ 2 / (c4Net.nominal_s * 1000)) ∧
      row2.g = c4DanglingLine.g / (100 ^ 2 / (c4Net.nominal_s * 1000)) ∧
      row2.b = c4DanglingLine.b / (100 ^ 2 / (c4Net.nominal_s * 1000))) :=
  ⟨rfl, List.mem_singleton.mpr rfl, rfl,
    c4_dangling_g_b_use_impedance_base c4Net c4DanglingLine 100 rfl
      (List.mem_singleton.mpr rfl) rfl⟩

/-- Raw HVDC row used by the C5 network: setpoint 10 MW, `max_p` 300 MW,
`nominal_v` 400 kV, `r` 1 Ω (the values of the repository's own HVDC
per-unit test, which expects `r = 0.000625`). -/
def c5Hvdc : HvdcLineRow := ⟨"HVDC1", 10, 300, 400, 1⟩

/-- C5 counterexample network: per-unit enabled, `nominal_s = 100`, one HVDC
line at `nominal_v = 400` with raw `r = 1`. -/
def c5Net : Network :=
  ((Network.init
    { emptyEngine with hvdcLines := [c5Hvdc] }).activate_per_unit).set_nominal_s 100

/-- C5: the claim that HVDC `r` is divided by `voltage_base² / (power_base · 1000)`
is false: with `nominal_s = 100` and `nominal_v = 400`, raw `r = 1` reads
back as `1 / (400² / 100) = 1/1600 = 0.000625` (the repository's HVDC test
value), not `1 / (400² / (100·1000)) = 5/8`. -/
theorem c5_counterexample :
    (c5Net.get_hvdc_lines.map fun row => row.r) = [(1 : ℚ) / (400 ^ 2 / 100)] ∧
    (1 : ℚ) / (400 ^ 2 / 100) = 1 / 1600 ∧
    (1 / 1600 : ℚ) ≠ 1 / (400 ^ 2 / (100 * 1000)) := by
  refine ⟨rfl, by norm_num, by norm_num⟩

/-- C5 (amended): with per-unit enabled, `get_hvdc_lines` divides `r` by
`nominal_v² / power_base` — the row's own `nominal_v` column, with no
voltage-level join, and no factor 1000 in the denominator — and divides
`active_power_setpoint` and `max_p` by the power base. -/
theorem c5_hvdc_r_base_no_kilo (n : Network) (row : HvdcLineRow)
    (hpu : n.per_unit = true)
    (hmem : row ∈ n.engine.hvdcLines) :
    ∃ row2 ∈ n.get_hvdc_lines, row2.id = row.id ∧
      row2.r = row.r / (row.nominal_v ^ 2 / n.nominal_s) ∧
      row2.active_power_setpoint = row.active_power_setpoint / n.nominal_s ∧
      row2.max_p = row.max_p / n.nominal_s ∧
      row2.nominal_v = row.nominal_v := by
  unfold Network.get_hvdc_lines
  simp only [hpu, if_true]
  exact ⟨{ row with
      max_p := row.max_p / n.nominal_s
      active_power_setpoint := row.active_power_setpoint / n.nominal_s
      r := row.r / (row.nominal_v ^ 2 / n.nominal_s) },
    List.mem_map_of_mem _ hmem, rfl, rfl, rfl, rfl, rfl⟩

/-- C5 witness: the amended statement instantiated on `c5Net` and its single
HVDC line. -/
theorem c5_witness :
    c5Net.per_unit = true ∧
    c5Hvdc ∈ c5Net.engine.hvdcLines ∧
    (∃ row2 ∈ c5Net.get_hvdc_lines, row2.id = c5Hvdc.id ∧
      row2.r = c5Hvdc.r / (c5Hvdc.nominal_v ^ 2 / c5Net.nominal_s) ∧
      row2.active_power_setpoint = c5Hvdc.active_power_setpoint / c5Net.nominal_s ∧
      row2.max_p = c5Hvdc.max_p / c5Net.nominal_s ∧
      row2.nominal_v = c5Hvdc.nominal_v) :=
  ⟨rfl, List.mem_singleton.mpr rfl,
    c5_hvdc_r_base_no_kilo c5Net c5Hvdc rfl (List.mem_singleton.mpr rfl)⟩

/-- C6 network: per-unit enabled, `nominal_s = 100` (no elements needed —
the failure happens before any engine call). -/
def c6Net : Network := ((Network.init emptyEngine).activate_per_unit).set_nominal_s 100

/-- C6 partial frame: only the `q0` column is supplied. -/
def c6Df : UpdateFrame := ⟨["LOAD"], [("q0", [3])]⟩

/-- C6: the claim that per-unit partial-column updates succeed is false:
with per-unit enabled, `update_loads` on a frame containing only `q0` fails
with `KeyError('p0')` from the unconditional `df['p0'] *= self.nominal_s`. -/
theorem c6_counterexample :
    c6Net.update_loads c6Df = .error (.keyError "p0") := rfl

/-- C6 (amended): partial-column updates go through untouched when per-unit
is disabled (the dispatcher only iterates the columns present); with
per-unit enabled, `update_loads` unconditionally rescales `p0` and `q0` and
fails with a `KeyError` naming the first missing one of those columns when
the caller's frame lacks it. -/
theorem c6_partial_columns_only_without_per_unit :
    (∀ (n : Network) (df : UpdateFrame), n.per_unit = false →
      n.update_loads df = .ok (df, df)) ∧
    (∀ (n : Network) (df : UpdateFrame), n.per_unit = true →
      df.getCol "p0" = none →
      n.update_loads df = .error (.keyError "p0")) ∧
    (∀ (n : Network) (df : UpdateFrame) (vs : List ℚ), n.per_unit = true →
      df.getCol "p0" = some vs →
      df.getCol "q0" = none →
      n.update_loads df = .error (.keyError "q0")) := by
  refine ⟨?_, ?_, ?_⟩
  · intro n df hpu
    unfold Network.update_loads
    rw [hpu]
    rfl
  · intro n df hpu hp
    unfold Network.update_loads
    rw [hpu]
    simp only [if_true]
    rw [UpdateFrame.mulCol_none df "p0" n.nominal_s hp, except_bind_error]
  · intro n df vs hpu hp hq
    unfold Network.update_loads
    rw [hpu]
    simp only [if_true]
    have hm1 : df.mulCol "p0" n.nominal_s =
        .ok { df with cols := df.cols.map fun c =>
                if c.1 = "p0" then (c.1, c.2.map fun v => v * n.nominal_s) else c } := by
      unfold UpdateFrame.mulCol
      rw [hp]
    rw [hm1, except_bind_ok]
    obtain ⟨hg, -⟩ := UpdateFrame.getCol_mulCol df _ "p0" "q0" n.nominal_s hm1
    rw [UpdateFrame.mulCol_none _ "q0" n.nominal_s (by rw [hg, if_neg (by decide), hq]),
      except_bind_error]

/-- C6 helper frames for the witness: a two-column frame and a `p0`-only
frame. -/
def c6DfOnlyP : UpdateFrame := ⟨["LOAD"], [("p0", [5])]⟩

/-- C6 network with per-unit disabled, for the witness's first conjunct. -/
def c6NetOff : Network := Network.init emptyEngine

/-- C6 witness: the amended statement instantiated on concrete frames — the
`q0`-only frame passes untouched when per-unit is off, fails with
`KeyError('p0')` when per-unit is on, and the `p0`-only frame fails with
`KeyError('q0')` when per-unit is on. -/
theorem c6_witness :
    (c6NetOff.per_unit = false ∧ c6NetOff.update_loads c6Df = .ok (c6Df, c6Df)) ∧
    (c6Net.per_unit = true ∧ c6Df.getCol "p0" = none ∧
      c6Net.update_loads c6Df = .error (.keyError "p0")) ∧
    (c6Net.per_unit = true ∧ c6DfOnlyP.getCol "p0" = some [5] ∧
      c6DfOnlyP.getCol "q0" = none ∧
      c6Net.update_loads c6DfOnlyP = .error (.keyError "q0")) :=
  ⟨⟨rfl, c6_partial_columns_only_without_per_unit.1 c6NetOff c6Df rfl⟩,
   ⟨rfl, rfl, c6_partial_columns_only_without_per_unit.2.1 c6Net c6Df rfl rfl⟩,
   ⟨rfl, rfl, rfl, c6_partial_columns_only_without_per_unit.2.2 c6Net c6DfOnlyP [5] rfl rfl rfl⟩⟩

/-- C7: for every bulk write, if the Schema Oracle returns a type code
outside {0, 1, 2, 3} for some column, `update_elements` ends with an
`unsupportedSeriesType` error carrying the element category and the (first)
offending column's name; when every code is recognized, each column is
dispatched, in order, to the typed primitive selected by its code — 0 to the
string write, 1 to the double write, 2 and 3 to the int write — with no
error. -/
theorem c7_unsupported_series_type (seriesTypeOf : ElementType → String → Int)
    (elementType : ElementType) (df : DataFrame) :
    ((∃ s ∈ df.columns, seriesTypeOf elementType s.name ≠ 0 ∧
        seriesTypeOf elementType s.name ≠ 1 ∧ seriesTypeOf elementType s.name ≠ 2 ∧
        seriesTypeOf elementType s.name ≠ 3) →
      ∃ s ∈ df.columns, seriesTypeOf elementType s.name ≠ 0 ∧
        seriesTypeOf elementType s.name ≠ 1 ∧ seriesTypeOf elementType s.name ≠ 2 ∧
        seriesTypeOf elementType s.name ≠ 3 ∧
        (update_elements seriesTypeOf elementType df).2 =
          some (.unsupportedSeriesType (seriesTypeOf elementType s.name) elementType s.name)) ∧
    ((∀ s ∈ df.columns, seriesTypeOf elementType s.name = 0 ∨
        seriesTypeOf elementType s.name = 1 ∨ seriesTypeOf elementType s.name = 2 ∨
        seriesTypeOf elementType s.name = 3) →
      update_elements seriesTypeOf elementType df =
        (df.columns.map (dispatchCall seriesTypeOf elementType df.index), none)) ∧
    (∀ (index : List String) (s : Series),
      (seriesTypeOf elementType s.name = 0 →
        dispatchCall seriesTypeOf elementType index s =
          .stringSeries elementType s.name index s.values s.values.length) ∧
      (seriesTypeOf elementType s.name = 1 →
        dispatchCall seriesTypeOf elementType index s =
          .doubleSeries elementType s.name index s.values s.values.length) ∧
      (seriesTypeOf elementType s.name = 2 ∨ seriesTypeOf elementType s.name = 3 →
        dispatchCall seriesTypeOf elementType index s =
          .intSeries elementType s.name index s.values s.values.length)) := by
  refine ⟨updateElementsLoop_err seriesTypeOf elementType df.index df.columns,
    updateElementsLoop_ok seriesTypeOf elementType df.index df.columns, ?_⟩
  intro index s
  refine ⟨fun h0 => ?_, fun h1 => ?_, fun h23 => ?_⟩
  · simp [dispatchCall, h0]
  · simp [dispatchCall, h1]
  · rcases h23 with h | h <;> simp [dispatchCall, h]

/-- The Schema Oracle used by the C7 witness: `str_col` is a string column,
`dbl_col` a double, `int_col` an integer, `bool_col` a boolean, and any
other column reports the unrecognized code 7. -/
def c7Oracle : ElementType → String → Int := fun _ name =>
  if name = "str_col" then 0
  else if name = "dbl_col" then 1
  else if name = "int_col" then 2
  else if name = "bool_col" then 3
  else 7

/-- C7 write frame containing a column with an unrecognized type code. -/
def c7BadDf : DataFrame := ⟨["L1"], [⟨"dbl_col", [.dbl 5]⟩, ⟨"weird", [.dbl 1]⟩]⟩

/-- C7 write frame whose columns all carry recognized type codes. -/
def c7GoodDf : DataFrame :=
  ⟨["L1"], [⟨"str_col", [.str "a"]⟩, ⟨"dbl_col", [.dbl 5]⟩,
    ⟨"int_col", [.int 2]⟩, ⟨"bool_col", [.int 1]⟩]⟩

/-- C7 witness: on `c7BadDf` the dispatcher reports the unsupported code
naming category and column; on `c7GoodDf` it performs the four typed
dispatches with no error. -/
theorem c7_witness :
    ((∃ s ∈ c7BadDf.columns, c7Oracle .LOAD s.name ≠ 0 ∧ c7Oracle .LOAD s.name ≠ 1 ∧
        c7Oracle .LOAD s.name ≠ 2 ∧ c7Oracle .LOAD s.name ≠ 3) ∧
      (∃ s ∈ c7BadDf.columns, c7Oracle .LOAD s.name ≠ 0 ∧ c7Oracle .LOAD s.name ≠ 1 ∧
        c7Oracle .LOAD s.name ≠ 2 ∧ c7Oracle .LOAD s.name ≠ 3 ∧
        (update_elements c7Oracle .LOAD c7BadDf).2 =
          some (.unsupportedSeriesType (c7Oracle .LOAD s.name) .LOAD s.name))) ∧
    ((∀ s ∈ c7GoodDf.columns, c7Oracle .LOAD s.name = 0 ∨ c7Oracle .LOAD s.name = 1 ∨
        c7Oracle .LOAD s.name = 2 ∨ c7Oracle .LOAD s.name = 3) ∧
      update_elements c7Oracle .LOAD c7GoodDf =
        (c7GoodDf.columns.map (dispatchCall c7Oracle .LOAD c7GoodDf.index), none)) :=
  ⟨⟨by decide, (c7_unsupported_series_type c7Oracle .LOAD c7BadDf).1 (by decide)⟩,
   ⟨by decide, (c7_unsupported_series_type c7Oracle .LOAD c7GoodDf).2.1 (by decide)⟩⟩

/-- C8: per-unit inverse law.  For any network and any positive power base,
the sequence deactivate; read; activate; set base; deactivate; read returns
the same loads table both times: activation, deactivation and setting the
base only flip the flag or the stored base — the engine tables are never
rescaled in place — and every read with per-unit off re-derives the raw
engine view. -/
theorem c8_per_unit_inverse_law (n : Network) (power_base : ℚ)
    (_hpb : 0 < power_base) :
    (((n.desactivate_per_unit.activate_per_unit).set_nominal_s
        power_base).desactivate_per_unit).get_loads = n.desactivate_per_unit.get_loads ∧
    n.desactivate_per_unit.get_loads = n.engine.loads ∧
    (n.desactivate_per_unit.activate_per_unit).engine = n.engine ∧
    ((n.desactivate_per_unit.activate_per_unit).set_nominal_s power_base).engine = n.engine ∧
    (n.desactivate_per_unit.activate_per_unit).per_unit = true ∧
    ((n.desactivate_per_unit.activate_per_unit).set_nominal_s power_base).nominal_s =
      power_base :=
  ⟨rfl, rfl, rfl, rfl, rfl, rfl⟩

/-- C8 witness: the inverse law instantiated on a freshly constructed
network and power base 100. -/
theorem c8_witness :
    (0 : ℚ) < 100 ∧
    ((((Network.init emptyEngine).desactivate_per_unit.activate_per_unit).set_nominal_s
        100).desactivate_per_unit).get_loads =
      (Network.init emptyEngine).desactivate_per_unit.get_loads :=
  ⟨by norm_num, (c8_per_unit_inverse_law (Network.init emptyEngine) 100 (by norm_num)).1⟩

/-- Raw load row used by the C9 network: the spec's concrete current
scenario, raw `i = 144.3376` A on a 400 kV voltage level. -/
def c9LoadRow : LoadRow := ⟨"LOAD", 6, 2, 6, 2, 144.3376, "VL"⟩

/-- C9 network: per-unit enabled, `nominal_s = 100`, one load with raw
`i = 144.3376` on a 400 kV level. -/
def c9Net : Network :=
  ((Network.init
    { emptyEngine with
      loads := [c9LoadRow],
      voltageLevels := [⟨"VL", 400⟩] }).activate_per_unit).set_nominal_s 100

/-- C9: with per-unit enabled, `get_loads` divides the raw current by the
base current `nominal_s * 1000 / (sqrt3 * voltage_base)` (where `sqrt3` is
the stored `math.sqrt(3)` constant); concretely, with `nominal_s = 100` and
a 400 kV base, a raw current of 144.3376 A reads back within 1/1000 of
1.0 per-unit. -/
theorem c9_current_base_formula :
    (∀ (n : Network) (row : LoadRow) (vb : ℚ),
      n.per_unit = true →
      row ∈ n.engine.loads →
      lookupNominalV n.engine.voltageLevels row.voltage_level_id = some vb →
      ∃ row2 ∈ n.get_loads, row2.id = row.id ∧
        row2.i = row.i / (n.nominal_s * 1000 / (n.sqrt3 * vb))) ∧
    ((c9Net.get_loads.map fun row => row.i) =
        [(144.3376 : ℚ) / (100 * 1000 / (sqrt3Double * 400))] ∧
      |(144.3376 : ℚ) / (100 * 1000 / (sqrt3Double * 400)) - 1| < 1 / 1000) := by
  refine ⟨?_, rfl, ?_⟩
  · intro n row vb hpu hmem hlook
    unfold Network.get_loads
    simp only [hpu, if_true]
    exact ⟨{ row with
        p0 := row.p0 / n.nominal_s
        q0 := row.q0 / n.nominal_s
        p := row.p / n.nominal_s
        q := row.q / n.nominal_s
        i := row.i / (n.nominal_s * 1000 / (n.sqrt3 * vb)) },
      List.mem_filterMap.mpr ⟨row, hmem, by rw [hlook]; rfl⟩, rfl, rfl⟩
  · rw [abs_sub_lt_iff, sqrt3Double]
    constructor <;> norm_num

/-- C9 witness: the current formula instantiated on `c9Net` and its single
load. -/
theorem c9_witness :
    c9Net.per_unit = true ∧
    c9LoadRow ∈ c9Net.engine.loads ∧
    lookupNominalV c9Net.engine.voltageLevels c9LoadRow.voltage_level_id = some 400 ∧
    (∃ row2 ∈ c9Net.get_loads, row2.id = c9LoadRow.id ∧
      row2.i = c9LoadRow.i / (c9Net.nominal_s * 1000 / (c9Net.sqrt3 * 400))) :=
  ⟨rfl, List.mem_singleton.mpr rfl, rfl,
    c9_current_base_formula.1 c9Net c9LoadRow 400 rfl (List.mem_singleton.mpr rfl) rfl⟩

/-- C10: with per-unit enabled, a successful `update_loads`,
`update_batteries`, `update_dangling_lines` or `update_hvdc_lines` call
leaves the caller's own frame with its `p0`/`q0` (respectively
`active_power_setpoint`) columns multiplied by `nominal_s`: the in-place
`df[c] *= k` statements rescale the object the caller passed, which is the
very frame dispatched to `update_elements` — no copy is taken. -/
theorem c10_updates_mutate_caller_frame (n : Network) (hpu : n.per_unit = true) :
    (∀ (df caller engineDf : UpdateFrame),
      n.update_loads df = .ok (caller, engineDf) →
      caller.getCol "p0" = (df.getCol "p0").map (List.map fun v => v * n.nominal_s) ∧
      caller.getCol "q0" = (df.getCol "q0").map (List.map fun v => v * n.nominal_s) ∧
      engineDf = caller) ∧
    (∀ (df caller engineDf : UpdateFrame),
      n.update_batteries df = .ok (caller, engineDf) →
      caller.getCol "p0" = (df.getCol "p0").map (List.map fun v => v * n.nominal_s) ∧
      caller.getCol "q0" = (df.getCol "q0").map (List.map fun v => v * n.nominal_s) ∧
      engineDf = caller) ∧
    (∀ (df caller engineDf : UpdateFrame),
      n.update_dangling_lines df = .ok (caller, engineDf) →
      caller.getCol "p0" = (df.getCol "p0").map (List.map fun v => v * n.nominal_s) ∧
      caller.getCol "q0" = (df.getCol "q0").map (List.map fun v => v * n.nominal_s) ∧
      engineDf = caller) ∧
    (∀ (df caller engineDf : UpdateFrame),
      n.update_hvdc_lines df = .ok (caller, engineDf) →
      caller.getCol "active_power_setpoint" =
        (df.getCol "active_power_setpoint").map (List.map fun v => v * n.nominal_s) ∧
      engineDf = caller) := by
  refine ⟨fun df caller engineDf h => ?_, fun df caller engineDf h => ?_,
    fun df caller engineDf h => ?_, fun df caller engineDf h => ?_⟩
  · obtain ⟨he, hp, hq, -, -⟩ := update_p0q0_ok n df caller engineDf hpu h
    exact ⟨hp, hq, he⟩
  · rw [Network.update_batteries_eq_update_loads] at h
    obtain ⟨he, hp, hq, -, -⟩ := update_p0q0_ok n df caller engineDf hpu h
    exact ⟨hp, hq, he⟩
  · rw [Network.update_dangling_lines_eq_update_loads] at h
    obtain ⟨he, hp, hq, -, -⟩ := update_p0q0_ok n df caller engineDf hpu h
    exact ⟨hp, hq, he⟩
  · obtain ⟨he, ha⟩ := update_hvdc_ok n df caller engineDf hpu h
    exact ⟨ha, he⟩

/-- C10 network: per-unit enabled, `nominal_s = 100`. -/
def c10Net : Network := ((Network.init emptyEngine).activate_per_unit).set_nominal_s 100

/-- C10 caller frame for the p0/q0 write paths. -/
def c10Df : UpdateFrame := ⟨["E"], [("p0", [1]), ("q0", [2])]⟩

/-- The frame `c10Df` becomes after in-place scaling by `nominal_s = 100`. -/
def c10DfScaled : UpdateFrame := ⟨["E"], [("p0", [1 * 100]), ("q0", [2 * 100])]⟩

/-- C10 caller frame for the HVDC write path. -/
def c10HvdcDf : UpdateFrame := ⟨["H"], [("active_power_setpoint", [3])]⟩

/-- The frame `c10HvdcDf` becomes after in-place scaling by
`nominal_s = 100`. -/
def c10HvdcDfScaled : UpdateFrame := ⟨["H"], [("active_power_setpoint", [3 * 100])]⟩

/-- C10 witness: the in-place mutation statement instantiated on `c10Net`
and concrete frames for `update_loads` and `update_hvdc_lines`. -/
theorem c10_witness :
    c10Net.per_unit = true ∧
    c10Net.update_loads c10Df = .ok (c10DfScaled, c10DfScaled) ∧
    (c10DfScaled.getCol "p0" =
        (c10Df.getCol "p0").map (List.map fun v => v * c10Net.nominal_s) ∧
      c10DfScaled.getCol "q0" =
        (c10Df.getCol "q0").map (List.map fun v => v * c10Net.nominal_s) ∧
      c10DfScaled = c10DfScaled) ∧
    c10Net.update_hvdc_lines c10HvdcDf = .ok (c10HvdcDfScaled, c10HvdcDfScaled) ∧
    (c10HvdcDfScaled.getCol "active_power_setpoint" =
        (c10HvdcDf.getCol "active_power_setpoint").map
          (List.map fun v => v * c10Net.nominal_s) ∧
      c10HvdcDfScaled = c10HvdcDfScaled) :=
  ⟨rfl, rfl,
    (c10_updates_mutate_caller_frame c10Net rfl).1 c10Df c10DfScaled c10DfScaled rfl,
    rfl,
    (c10_updates_mutate_caller_frame c10Net rfl).2.2.2 c10HvdcDf c10HvdcDfScaled
      c10HvdcDfScaled rfl⟩
